import Mathlib

/-!
Verification of the starlette-ariadne-tortoise-orm example site backend.

The development shallowly embeds the GraphQL resolver layer
(`example_site/backend/routing.py`) and the authentication middleware
(`example_site/backend/auth.py`).  The persistence layer (tortoise ORM)
is modelled as an in-memory record store threaded through the handlers,
matching the spec's decision to treat the Account/Post store as an
external persistence service.  Cryptographic primitives (sha256, bcrypt,
HMAC signing inside PyJWT) are modelled as ideal injective functions:
the handlers only compose them, so their internal structure is opaque
to the properties proved here.  Randomness (uuid4, bcrypt.gensalt) is
passed to the handlers as explicit arguments.
-/

namespace ExampleSite

/-- The symmetric signing secret, read from configuration in
`backend/settings.py` (`JWT_SECRET_KEY = CONFIG('JWT_SECRET_KEY', ...)`).
Its concrete value is irrelevant to the handlers; we fix one. -/
def JWT_SECRET_KEY : String := "JWT_SECRET_KEY"

/-- Model of `hashlib.sha256(password.encode()).digest()`:
an ideal (injective) fixed-length digest. -/
def sha256 (s : String) : String := "sha256." ++ s

/-- Model of `base64.b64encode`. -/
def b64encode (s : String) : String := "b64." ++ s

/-- Model of a bcrypt output string: bcrypt's `hashpw` output embeds the
salt together with the digest of the input, which is what allows
`checkpw` to re-run the hash with the same salt. -/
structure BcryptHash where
  salt : String
  digest : String
deriving Repr, DecidableEq

/-- The ideal slow hash underlying bcrypt: collision-free on its input
for a fixed salt, modelled as the identity on the (already digested)
input data. -/
def bcryptDigest (data : String) ( _salt : String) : String := data

/-- Model of `bcrypt.hashpw(data, salt)`. -/
def hashpw (data : String) (salt : String) : BcryptHash :=
  ⟨salt, bcryptDigest data salt⟩

/-- Model of `bcrypt.checkpw(data, stored)`: re-hash `data` with the
stored salt and compare. -/
def checkpw (data : String) (stored : BcryptHash) : Bool :=
  bcryptDigest data stored.salt == stored.digest

/-- The claim set carried by a session token:
`{"id": user.id, "token_id": user.token_id.hex}` in `log_in`. -/
structure Claims where
  id : Nat
  token_id : String
deriving Repr, DecidableEq

/-- A structurally well-formed JWT: the (non-encrypted) claim set plus
the HMAC signature over it. -/
structure JWT where
  id : Nat
  token_id : String
  sig : String
deriving Repr, DecidableEq

/-- Ideal model of the HS256 MAC computed by PyJWT over the claim set. -/
def hmacSign (key : String) (id : Nat) (token_id : String) : String :=
  "HS256." ++ key ++ "." ++ toString id ++ "." ++ token_id

/-- Model of `jwt.encode({"id": id, "token_id": rev}, key, algorithm="HS256")`. -/
def jwt_encode (id : Nat) (token_id : String) (key : String) : JWT :=
  ⟨id, token_id, hmacSign key id token_id⟩

/-- One whitespace-separated piece of an `Authorization` header value:
either an arbitrary string that is not parseable as a JWT, or a
structurally well-formed (though possibly wrongly signed) JWT. -/
inductive Part where
  | str (s : String)
  | tok (t : JWT)
deriving Repr, DecidableEq

/-- The string rendering of a header part, as the middleware sees it.
A serialized JWT is dot-separated base64 segments; its lowercase form
is never the bare word `bearer`. -/
def Part.asStr : Part → String
  | .str s => s
  | .tok t => "jwt." ++ toString t.id ++ "." ++ t.token_id ++ "." ++ t.sig

/-- Model of Python's `str.lower()` (the `scheme.lower()` call):
character-wise lowercasing. -/
def strLower (s : String) : String := ⟨s.data.map Char.toLower⟩

/-- Model of `jwt.decode(token, key, ...)`: a non-JWT string fails to
parse (`DecodeError`, a subclass of `InvalidTokenError`); a JWT whose
signature does not match the MAC over its claims fails signature
verification; otherwise the claim set is returned. -/
def jwt_decode (key : String) : Part → Except String Claims
  | .str _ => .error "Not enough segments"
  | .tok t =>
      if t.sig == hmacSign key t.id t.token_id then
        .ok ⟨t.id, t.token_id⟩
      else
        .error "Signature verification failed"

/-- A `User` record as the handlers read and write it
(`User.get`/`User.create` in `routing.py`): id, username, email,
bcrypt-hashed password, and the revocation `token_id` (a uuid4, stored
hex-encoded here since the handlers only ever compare its `.hex`). -/
structure User where
  id : Nat
  username : String
  email : String
  password : BcryptHash
  token_id : String
deriving Repr, DecidableEq

/-- A `Post` record: id, title, body and the owning user's id
(the `user` foreign key). -/
structure Post where
  id : Nat
  title : String
  body : String
  user_id : Nat
deriving Repr, DecidableEq

/-- The persistence service state: user and post tables plus the
auto-increment counters for their primary keys. -/
structure DB where
  users : List User
  posts : List Post
  nextUserId : Nat
  nextPostId : Nat
deriving Repr, DecidableEq

/-- Model of `User.get(username=...)`: the record with that username,
if any (`DoesNotExist` is modelled by `none`). -/
def getUserByUsername (db : DB) (username : String) : Option User :=
  db.users.find? (fun u => u.username == username)

/-- Model of `User.get(id=...)`. -/
def getUserById (db : DB) (id : Nat) : Option User :=
  db.users.find? (fun u => u.id == id)

/-- The authenticated user object built by the middleware
(`JWTUser(user.id, user.username)` in `auth.py`). -/
structure JWTUser where
  user_id : Nat
  username : String
deriving Repr, DecidableEq

/-- `request.user` as seen by the resolvers: `some` a `JWTUser` when the
middleware authenticated the request, `none` for starlette's
`UnauthenticatedUser` placeholder. -/
structure Request where
  user : Option JWTUser
deriving Repr, DecidableEq

/-- The possible outcomes of `JWTAuthBackend.authenticate`:
return `None` (request proceeds unauthenticated), raise
`AuthenticationError` (converted to a 401 response by `on_auth_error`),
raise an uncaught `ValueError` (from unpacking `auth.split()`), or
return credentials plus the authenticated user. -/
inductive AuthOutcome where
  | unauthenticated
  | authError (msg : String)
  | valueError
  | ok (credentials : List String) (user : JWTUser)
deriving Repr, DecidableEq

/-- Shallow embedding of `JWTAuthBackend.authenticate` in `auth.py`.
The `Authorization` header is `none` when absent, otherwise the list of
its whitespace-separated parts (Python's `auth.split()`); unpacking
`scheme, token = auth.split()` raises `ValueError` unless there are
exactly two parts. -/
def authenticate (db : DB) (authorization : Option (List Part)) : AuthOutcome :=
  match authorization with
  | none => .unauthenticated
  | some parts =>
    match parts with
    | [scheme, token] =>
      if strLower scheme.asStr ≠ "bearer" then
        .unauthenticated
      else
        match jwt_decode JWT_SECRET_KEY token with
        | .error e => .authError e
        | .ok payload =>
          match getUserById db payload.id with
          | none => .authError "Invalid User, log in with a valid user"
          | some user =>
            if payload.token_id ≠ user.token_id then
              .authError "Please log in again"
            else
              .ok ["authenticated"] ⟨user.id, user.username⟩
    | _ => .valueError

/-- The `CreateUserPayload` dict returned by `create_user`. -/
structure CreateUserResult where
  status : String
  error : Option String
  user : Option User
deriving Repr, DecidableEq

/-- Shallow embedding of the `createUser` mutation (`create_user` in
`routing.py`).  `salt` models `bcrypt.gensalt()` and `uuidHex` models
`uuid.uuid4()`, both drawn from the environment's randomness. -/
def create_user (db : DB) (username email password : String)
    (salt uuidHex : String) : CreateUserResult × DB :=
  match getUserByUsername db username with
  | some _ => (⟨"FAILED", some "User name is already in use", none⟩, db)
  | none =>
    let hashed := hashpw (b64encode (sha256 password)) salt
    let user : User := ⟨db.nextUserId, username, email, hashed, uuidHex⟩
    (⟨"SUCCESSFUL", none, some user⟩,
     ⟨db.users ++ [user], db.posts, db.nextUserId + 1, db.nextPostId⟩)

/-- The `LoginPayload` dict returned by `log_in`. -/
structure LoginResult where
  status : String
  error : Option String
  token : Option JWT
deriving Repr, DecidableEq

/-- Shallow embedding of the `login` mutation (`log_in` in `routing.py`). -/
def log_in (db : DB) (username password : String) : LoginResult :=
  match getUserByUsername db username with
  | none => ⟨"FAILED", some "unable to log in", none⟩
  | some user =>
    if checkpw (b64encode (sha256 password)) user.password then
      ⟨"SUCCESSFUL", none, some (jwt_encode user.id user.token_id JWT_SECRET_KEY)⟩
    else
      ⟨"FAILED", some "unable to log in", none⟩

/-- The `CreatePostPayload` dict returned by `create_post`. -/
structure CreatePostResult where
  status : String
  error : Option String
  post : Option Post
deriving Repr, DecidableEq

/-- Shallow embedding of the `createPost` mutation (`create_post` in
`routing.py`).  Besides the result payload and the updated store, the
list of `PUBSUB.emit` calls performed (event name and payload) is
returned, modelling the event-bus side effect. -/
def create_post (db : DB) (req : Request) (title body : String) :
    CreatePostResult × DB × List (String × Post) :=
  match req.user with
  | none => (⟨"AUTHERROR", some "Please log in", none⟩, db, [])
  | some ju =>
    match getUserById db ju.user_id with
    | none => (⟨"FAILED", some "unable to create post, user does not exist", none⟩, db, [])
    | some user =>
      let post : Post := ⟨db.nextPostId, title, body, user.id⟩
      (⟨"SUCCESSFUL", none, some post⟩,
       ⟨db.users, db.posts ++ [post], db.nextUserId, db.nextPostId + 1⟩,
       [("new_post", post)])

/-- Shallow embedding of the `logout` mutation (`log_out` in
`routing.py`).  `uuidHex` models the fresh `uuid.uuid4()`; the
`User.get(id=...).update(token_id=...)` call updates the matching
record's revocation token in place. -/
def log_out (db : DB) (req : Request) (uuidHex : String) : Bool × DB :=
  match req.user with
  | none => (false, db)
  | some ju =>
    (true,
     ⟨db.users.map (fun u => if u.id == ju.user_id then { u with token_id := uuidHex } else u),
      db.posts, db.nextUserId, db.nextPostId⟩)

/-- One observable step of the `counter` async generator: either an
`await asyncio.sleep(1)` or a `yield i`. -/
inductive Emission where
  | sleep
  | yield (i : Nat)
deriving Repr, DecidableEq

/-- Shallow embedding of the `counter` subscription source: the trace of
sleeps and yields produced by
`for i in range(limit): await asyncio.sleep(1); yield i`,
built up iteration by iteration. -/
def counterTrace : Nat → List Emission
  | 0 => []
  | n + 1 => counterTrace n ++ [.sleep, .yield n]

/-- The `count` field resolver: `return number + 1`. -/
def count (number : Nat) : Nat := number + 1

/-- The values actually delivered to a `count(limit)` subscriber: each
yielded generator value passed through the `count` field resolver. -/
def countEmitted (limit : Nat) : List Nat :=
  (counterTrace limit).filterMap (fun e =>
    match e with
    | .yield i => some (count i)
    | .sleep => none)

/-! ### Shared helper lemmas and concrete fixtures -/

/-- A concrete registered user, for witnessing the theorems below. -/
def userW : User := ⟨1, "bob", "b@x", ⟨"s1", "b64.sha256.pw"⟩, "aa11"⟩

/-- A concrete store holding just `userW`. -/
def dbW : DB := ⟨[userW], [], 2, 1⟩

/-- A login whose result carries status `FAILED` carries exactly the
uniform failure payload. -/
theorem log_in_failed_eq (db : DB) (username password : String)
    (h : (log_in db username password).status = "FAILED") :
    log_in db username password = ⟨"FAILED", some "unable to log in", none⟩ := by
  unfold log_in at h ⊢
  cases hfind : getUserByUsername db username with
  | none => rfl
  | some u =>
      simp only [hfind] at h
      by_cases hc : checkpw (b64encode (sha256 password)) u.password
      · rw [if_pos hc] at h
        have hss : "SUCCESSFUL" = "FAILED" := h
        exact absurd hss (by decide)
      · simp [hc]

/-- Looking up the logged-out account afterwards yields the same record
with the regenerated revocation token. -/
theorem getUserById_log_out (db : DB) (ju : JWTUser) (fresh : String) (u : User)
    (hu : getUserById db ju.user_id = some u) :
    getUserById (log_out db ⟨some ju⟩ fresh).2 ju.user_id =
      some { u with token_id := fresh } := by
  unfold getUserById at hu
  have hpu : (u.id == ju.user_id) = true := by
    simpa using List.find?_some hu
  have hcomp : ((fun v : User => v.id == ju.user_id) ∘
      (fun v : User => if v.id == ju.user_id then { v with token_id := fresh } else v)) =
      (fun v : User => v.id == ju.user_id) := by
    funext v
    by_cases h : v.id = ju.user_id <;> simp [h]
  have hid : u.id = ju.user_id := by simpa using hpu
  unfold getUserById log_out
  simp only
  rw [List.find?_map, hcomp, hu]
  simp [hid]

/-- Unrolling one iteration of the `counter` loop through the `count`
field resolver. -/
theorem countEmitted_succ (n : Nat) :
    countEmitted (n + 1) = countEmitted n ++ [n + 1] := by
  unfold countEmitted
  rw [show counterTrace (n + 1) = counterTrace n ++ [.sleep, .yield n] from rfl]
  rw [List.filterMap_append]
  rfl

/-- The delivered `count` values in closed form. -/
theorem countEmitted_eq_range (n : Nat) :
    countEmitted n = (List.range n).map (fun i => i + 1) := by
  induction n with
  | zero => rfl
  | succ k ih =>
      rw [countEmitted_succ, ih, List.range_succ, List.map_append]
      rfl

/-- The generator trace in closed form: each loop iteration contributes
its sleep immediately followed by its yield. -/
theorem counterTrace_eq_flatMap (n : Nat) :
    counterTrace n = (List.range n).flatMap (fun i => [Emission.sleep, Emission.yield i]) := by
  induction n with
  | zero => rfl
  | succ k ih =>
      rw [show counterTrace (k + 1) = counterTrace k ++ [.sleep, .yield k] from rfl,
        ih, List.range_succ, List.flatMap_append]
      rfl

/-! ### The claims -/

/-- Claim C1: after logout regenerates the account's revocation token, a
token issued before the regeneration (embedding the old `token_id`)
still passes signature verification on its own, yet authentication
against the live account record fails with the `Please log in again`
error, because the embedded `token_id` no longer matches the account's
current one. -/
theorem c1_revoked_token_fails_authentication (db : DB) (u : User) (fresh : String)
    (hu : getUserById db u.id = some u) (hneq : fresh ≠ u.token_id) :
    jwt_decode JWT_SECRET_KEY (Part.tok (jwt_encode u.id u.token_id JWT_SECRET_KEY)) =
      Except.ok ⟨u.id, u.token_id⟩ ∧
    authenticate (log_out db ⟨some ⟨u.id, u.username⟩⟩ fresh).2
      (some [Part.str "Bearer", Part.tok (jwt_encode u.id u.token_id JWT_SECRET_KEY)]) =
      AuthOutcome.authError "Please log in again" := by
  constructor
  · simp [jwt_decode, jwt_encode]
  · have hafter : getUserById (log_out db ⟨some ⟨u.id, u.username⟩⟩ fresh).2 u.id =
        some { u with token_id := fresh } :=
      getUserById_log_out db ⟨u.id, u.username⟩ fresh u hu
    have hneq' : u.token_id ≠ fresh := fun h => hneq h.symm
    simp only [authenticate, Part.asStr]
    rw [if_neg (by decide)]
    simp [jwt_decode, jwt_encode, hafter, hneq']

/-- Witness for C1 at the concrete store `dbW`. -/
theorem c1_witness :
    jwt_decode JWT_SECRET_KEY (Part.tok (jwt_encode userW.id userW.token_id JWT_SECRET_KEY)) =
      Except.ok ⟨userW.id, userW.token_id⟩ ∧
    authenticate (log_out dbW ⟨some ⟨userW.id, userW.username⟩⟩ "cc33").2
      (some [Part.str "Bearer", Part.tok (jwt_encode userW.id userW.token_id JWT_SECRET_KEY)]) =
      AuthOutcome.authError "Please log in again" :=
  c1_revoked_token_fails_authentication dbW userW "cc33" (by decide) (by decide)

/-- Claim C2: verifying a token issued for an account id and
revocation-token value, with the same symmetric secret, returns exactly
that id and value unchanged. -/
theorem c2_verify_issue_roundtrip (id : Nat) (rev : String) (key : String) :
    jwt_decode key (Part.tok (jwt_encode id rev key)) = Except.ok ⟨id, rev⟩ := by
  simp [jwt_decode, jwt_encode]

/-- Claim C3: `createPost` with no authenticated identity returns the
auth-error payload, leaves the store unchanged, and publishes nothing. -/
theorem c3_create_post_unauthenticated_noop (db : DB) (title body : String) :
    create_post db ⟨none⟩ title body =
      (⟨"AUTHERROR", some "Please log in", none⟩, db, []) := rfl

/-- Claim C4, counterexample: an `Authorization` header that does not
split into exactly two whitespace-separated parts (here the single word
`Bearer`) is not silently treated as unauthenticated — the unpacking
`scheme, token = auth.split()` raises an uncaught `ValueError`. -/
theorem c4_counterexample :
    authenticate ⟨[], [], 1, 1⟩ (some [Part.str "Bearer"]) = AuthOutcome.valueError ∧
    authenticate ⟨[], [], 1, 1⟩ (some [Part.str "Bearer"]) ≠ AuthOutcome.unauthenticated := by
  exact ⟨rfl, by decide⟩

/-- Claim C4 as amended: a missing `Authorization` header, or a header
of exactly two parts whose scheme is not `bearer`, is silently treated
as unauthenticated; the scheme match is case-insensitive (the outcome
depends only on the lowercased scheme); a header that does not split
into exactly two whitespace-separated parts raises an uncaught
`ValueError` rather than being treated as unauthenticated; and a
two-part bearer header whose token fails signature verification yields
the distinct authentication error. -/
theorem c4_amended_header_handling (db : DB) (s₁ s₂ : String) (p : Part) (t : JWT)
    (parts : List Part) :
    authenticate db none = AuthOutcome.unauthenticated ∧
    (strLower s₁ ≠ "bearer" →
      authenticate db (some [Part.str s₁, p]) = AuthOutcome.unauthenticated) ∧
    (strLower s₁ = strLower s₂ →
      authenticate db (some [Part.str s₁, p]) = authenticate db (some [Part.str s₂, p])) ∧
    (parts.length ≠ 2 → authenticate db (some parts) = AuthOutcome.valueError) ∧
    (t.sig ≠ hmacSign JWT_SECRET_KEY t.id t.token_id →
      authenticate db (some [Part.str "Bearer", Part.tok t]) =
        AuthOutcome.authError "Signature verification failed") := by
  refine ⟨rfl, ?_, ?_, ?_, ?_⟩
  · intro hs
    simp [authenticate, Part.asStr, hs]
  · intro hs
    simp only [authenticate, Part.asStr, hs]
  · intro hlen
    match parts with
    | [] => rfl
    | [_] => rfl
    | [_, _] => exact absurd rfl hlen
    | _ :: _ :: _ :: _ => rfl
  · intro hsig
    have hb : (t.sig == hmacSign JWT_SECRET_KEY t.id t.token_id) = false :=
      beq_eq_false_iff_ne.mpr hsig
    simp only [authenticate, Part.asStr]
    rw [if_neg (by decide)]
    simp [jwt_decode, hb]

/-- Witness for the amended C4 on concrete headers. -/
theorem c4_amended_witness :
    authenticate dbW (some [Part.str "Basic", Part.str "zz"]) = AuthOutcome.unauthenticated ∧
    authenticate dbW (some [Part.str "BeArEr", Part.str "zz"]) =
      authenticate dbW (some [Part.str "bearer", Part.str "zz"]) ∧
    authenticate dbW (some [Part.str "Bearer"]) = AuthOutcome.valueError ∧
    authenticate dbW (some [Part.str "Bearer", Part.tok ⟨1, "aa11", "bad"⟩]) =
      AuthOutcome.authError "Signature verification failed" :=
  ⟨(c4_amended_header_handling dbW "Basic" "x" (Part.str "zz") ⟨1, "aa11", "bad"⟩ []).2.1
      (by decide),
   (c4_amended_header_handling dbW "BeArEr" "bearer" (Part.str "zz") ⟨1, "aa11", "bad"⟩ []).2.2.1
      (by decide),
   (c4_amended_header_handling dbW "x" "x" (Part.str "zz") ⟨1, "aa11", "bad"⟩
      [Part.str "Bearer"]).2.2.2.1 (by decide),
   (c4_amended_header_handling dbW "x" "x" (Part.str "zz") ⟨1, "aa11", "bad"⟩ []).2.2.2.2
      (by decide)⟩

/-- A `createUser` call against a store already holding the username
returns the duplicate-username failure payload. -/
theorem create_user_duplicate (db : DB) (username e p s t : String) (u : User)
    (h : getUserByUsername db username = some u) :
    (create_user db username e p s t).1 =
      ⟨"FAILED", some "User name is already in use", none⟩ := by
  simp [create_user, h]

/-- Claim C5: with a username not yet taken, the first `createUser`
call reports status `SUCCESSFUL`; a second call with the same username
(whatever its other arguments) returns the `FAILED` payload with the
duplicate-username error string. -/
theorem c5_duplicate_username (db : DB) (username e₁ p₁ s₁ t₁ e₂ p₂ s₂ t₂ : String)
    (hfresh : getUserByUsername db username = none) :
    (create_user db username e₁ p₁ s₁ t₁).1.status = "SUCCESSFUL" ∧
    (create_user (create_user db username e₁ p₁ s₁ t₁).2 username e₂ p₂ s₂ t₂).1 =
      ⟨"FAILED", some "User name is already in use", none⟩ := by
  have hdb2 : (create_user db username e₁ p₁ s₁ t₁).2 =
      ⟨db.users ++ [⟨db.nextUserId, username, e₁, hashpw (b64encode (sha256 p₁)) s₁, t₁⟩],
       db.posts, db.nextUserId + 1, db.nextPostId⟩ := by
    simp [create_user, hfresh]
  constructor
  · simp [create_user, hfresh]
  · have h2 : getUserByUsername (create_user db username e₁ p₁ s₁ t₁).2 username =
        some ⟨db.nextUserId, username, e₁, hashpw (b64encode (sha256 p₁)) s₁, t₁⟩ := by
      rw [hdb2]
      unfold getUserByUsername at hfresh
      simp only [getUserByUsername]
      rw [List.find?_append, hfresh]
      simp
    exact create_user_duplicate _ username e₂ p₂ s₂ t₂ _ h2

/-- Witness for C5 starting from the concrete store `dbW`. -/
theorem c5_witness :
    (create_user dbW "alice" "a@x" "pw" "s2" "bb22").1.status = "SUCCESSFUL" ∧
    (create_user (create_user dbW "alice" "a@x" "pw" "s2" "bb22").2
        "alice" "c@x" "p2" "s3" "cc33").1 =
      ⟨"FAILED", some "User name is already in use", none⟩ :=
  c5_duplicate_username dbW "alice" "a@x" "pw" "s2" "bb22" "c@x" "p2" "s3" "cc33" (by decide)

/-- Claim C6: any two failing logins — whether the username is unknown
or the password hash comparison fails — return the one uniform payload
`{status: FAILED, error: "unable to log in"}`, so the response does not
reveal which cause occurred. -/
theorem c6_login_failures_indistinguishable (db₁ : DB) (u₁ p₁ : String)
    (db₂ : DB) (u₂ p₂ : String)
    (h₁ : (log_in db₁ u₁ p₁).status = "FAILED")
    (h₂ : (log_in db₂ u₂ p₂).status = "FAILED") :
    log_in db₁ u₁ p₁ = ⟨"FAILED", some "unable to log in", none⟩ ∧
    log_in db₁ u₁ p₁ = log_in db₂ u₂ p₂ := by
  have e₁ := log_in_failed_eq db₁ u₁ p₁ h₁
  have e₂ := log_in_failed_eq db₂ u₂ p₂ h₂
  exact ⟨e₁, by rw [e₁, e₂]⟩

/-- Witness for C6: an unknown-username failure and a wrong-password
failure against the concrete store `dbW` produce identical payloads. -/
theorem c6_witness :
    log_in dbW "alice" "x" = ⟨"FAILED", some "unable to log in", none⟩ ∧
    log_in dbW "alice" "x" = log_in dbW "bob" "wrong" :=
  c6_login_failures_indistinguishable dbW "alice" "x" dbW "bob" "wrong"
    (by decide) (by decide)

/-- Claim C7: an unauthenticated logout returns `false` and changes
nothing; an authenticated logout returns `true` and stores a fresh
revocation token on the caller's account record, after which any token
embedding a different (in particular any previously issued) revocation
value fails authentication with the log-in-again error — revoking every
outstanding session of the account. -/
theorem c7_logout (db : DB) (ju : JWTUser) (fresh : String) (u : User)
    (hu : getUserById db ju.user_id = some u) :
    log_out db ⟨none⟩ fresh = (false, db) ∧
    (log_out db ⟨some ju⟩ fresh).1 = true ∧
    getUserById (log_out db ⟨some ju⟩ fresh).2 ju.user_id =
      some { u with token_id := fresh } ∧
    (∀ old : String, old ≠ fresh →
      authenticate (log_out db ⟨some ju⟩ fresh).2
        (some [Part.str "Bearer", Part.tok (jwt_encode ju.user_id old JWT_SECRET_KEY)]) =
        AuthOutcome.authError "Please log in again") := by
  have hafter := getUserById_log_out db ju fresh u hu
  refine ⟨rfl, rfl, hafter, ?_⟩
  intro old hold
  simp only [authenticate, Part.asStr]
  rw [if_neg (by decide)]
  simp [jwt_decode, jwt_encode, hafter, hold]

/-- Witness for C7 at the concrete store `dbW`. -/
theorem c7_witness :
    log_out dbW ⟨none⟩ "cc33" = (false, dbW) ∧
    (log_out dbW ⟨some ⟨1, "bob"⟩⟩ "cc33").1 = true ∧
    getUserById (log_out dbW ⟨some ⟨1, "bob"⟩⟩ "cc33").2 1 =
      some { userW with token_id := "cc33" } ∧
    authenticate (log_out dbW ⟨some ⟨1, "bob"⟩⟩ "cc33").2
      (some [Part.str "Bearer", Part.tok (jwt_encode 1 "aa11" JWT_SECRET_KEY)]) =
      AuthOutcome.authError "Please log in again" :=
  have h := c7_logout dbW ⟨1, "bob"⟩ "cc33" userW (by decide)
  ⟨h.1, h.2.1, h.2.2.1, h.2.2.2 "aa11" (by decide)⟩

/-- Claim C8: an authenticated `createPost` whose identity resolves to
an existing account returns the success payload containing the created
post, appends exactly that post to the store, leaves the user table
unchanged, and publishes exactly one `new_post` event carrying the
created post. -/
theorem c8_create_post_success (db : DB) (ju : JWTUser) (u : User) (title body : String)
    (hu : getUserById db ju.user_id = some u) :
    create_post db ⟨some ju⟩ title body =
      (⟨"SUCCESSFUL", none, some ⟨db.nextPostId, title, body, u.id⟩⟩,
       ⟨db.users, db.posts ++ [⟨db.nextPostId, title, body, u.id⟩],
        db.nextUserId, db.nextPostId + 1⟩,
       [("new_post", ⟨db.nextPostId, title, body, u.id⟩)]) := by
  simp [create_post, hu]

/-- Witness for C8 at the concrete store `dbW`. -/
theorem c8_witness :
    create_post dbW ⟨some ⟨1, "bob"⟩⟩ "t" "b" =
      (⟨"SUCCESSFUL", none, some ⟨1, "t", "b", 1⟩⟩,
       ⟨dbW.users, dbW.posts ++ [⟨1, "t", "b", 1⟩], dbW.nextUserId, 2⟩,
       [("new_post", ⟨1, "t", "b", 1⟩)]) :=
  c8_create_post_success dbW ⟨1, "bob"⟩ userW "t" "b" (by decide)

/-- Claim C9: the `count(limit)` subscription delivers exactly the
values `1, 2, ..., limit` in increasing order (each generator yield
passed through the `count` resolver), hence exactly `limit` emissions
before the generator terminates, and no two emissions are adjacent in
the generator trace — a sleep separates any two of them. -/
theorem c9_count_emits_one_to_limit (limit : Nat) :
    countEmitted limit = (List.range limit).map (fun i => i + 1) ∧
    (countEmitted limit).length = limit ∧
    List.Chain' (fun a b => a = Emission.sleep ∨ b = Emission.sleep) (counterTrace limit) := by
  refine ⟨countEmitted_eq_range limit, ?_, ?_⟩
  · rw [countEmitted_eq_range, List.length_map, List.length_range]
  · induction limit with
    | zero => exact List.chain'_nil
    | succ k ih =>
        rw [show counterTrace (k + 1) = counterTrace k ++ [.sleep, .yield k] from rfl,
          List.chain'_append]
        refine ⟨ih, ?_, ?_⟩
        · simp [List.chain'_cons]
        · intro x _ y hy
          right
          simpa using hy.symm

/-- Claim C10: in the generator trace every sleep immediately precedes
its corresponding yield (the trace is the concatenation of
`[sleep, yield i]` blocks), so in particular the trace of any
non-trivial run starts with a sleep: the first value is produced only
after one full time unit. -/
theorem c10_sleep_precedes_first_yield (limit : Nat) :
    counterTrace limit =
      (List.range limit).flatMap (fun i => [Emission.sleep, Emission.yield i]) ∧
    (counterTrace (limit + 1)).head? = some Emission.sleep := by
  refine ⟨counterTrace_eq_flatMap limit, ?_⟩
  rw [counterTrace_eq_flatMap, List.range_succ_eq_map]
  rfl

end ExampleSite
